import Mathlib

/-!
Shallow embedding of the Goat transaction decode/dispatch pipeline from
crates/consensus/src/transaction: the six inner transaction variants with
their fixed-offset decoders (tx_bridge.rs, tx_locking.rs), the
(module, action) dispatcher (goat_types/tx.rs), and the outer RLP envelope
(goat.rs).

Bytes are modelled as `Nat` (values < 256 on real inputs), buffers as
`List Nat`.  Addresses (20 bytes) and transaction hashes (32 bytes) are
kept as the byte slices the source extracts.  256/64/32-bit integers are
`Nat` obtained by big-endian conversion of the exact-width slice, so no
modular reduction is needed.

Rust `Result<_, alloy_rlp::Error>` becomes `DecodeResult`, with a third
outcome `panic` marking places where the Rust source would panic (slice
indexing out of bounds); the defensive `try_into().map_err(...)` branches
of the source are modelled by explicit length tests producing the same
`Custom` error messages.
-/

/-- Mirror of the alloy_rlp::Error variants used by this code. -/
inductive RlpError where
  | ListLengthMismatch (expected got : Nat)
  | Custom (msg : String)
  | InputTooShort
  | Overflow
  | LeadingZero
  | NonCanonicalSingleByte
  | NonCanonicalSize
  | UnexpectedList
  deriving DecidableEq, Repr

/-- Result of a decode step: success, a recoverable error, or a Rust panic
(out-of-bounds slice index), which is not a recoverable error in Rust. -/
inductive DecodeResult (α : Type) where
  | ok (val : α)
  | error (e : RlpError)
  | panic
  deriving DecidableEq, Repr

def DecodeResult.map {α β : Type} (f : α → β) : DecodeResult α → DecodeResult β
  | .ok a => .ok (f a)
  | .error e => .error e
  | .panic => .panic

def DecodeResult.isOk {α : Type} : DecodeResult α → Bool
  | .ok _ => true
  | _ => false

/-- Rust range slicing `&buf[i..i+n]`: panics (`none`) unless `i+n ≤ buf.len()`. -/
def checkedSlice (buf : List Nat) (i n : Nat) : Option (List Nat) :=
  if i + n ≤ buf.length then some ((buf.drop i).take n) else none

/-- The (always in-bounds variant of the) slice `buf[i..i+n]`. -/
def sliceAt (buf : List Nat) (i n : Nat) : List Nat :=
  (buf.drop i).take n

/-- Big-endian bytes-to-Nat conversion (uN/U256::from_be_bytes). -/
def fromBeBytes (bs : List Nat) : Nat :=
  bs.foldl (fun acc b => acc * 256 + b) 0

-- Error message string constants (verbatim from the source).
def msgInvalidMethodId : String := "Invalid method ID format"
def msgNotDeposit : String := "not a deposit tx"
def msgNotCancel2 : String := "not a cancel2 tx"
def msgNotPaid : String := "not a paid tx"
def msgNotNewBlockHash : String := "not a newBlockHash tx"
def msgNotCompleteUnlock : String := "not a completeUnlock tx"
def msgFailTxOut : String := "Failed to decode tx_out"
def msgFailAmount : String := "Failed to decode amount"
def msgFailTax : String := "Failed to decode tax"
def msgFailId : String := "Failed to decode id"
def msgFailGoat : String := "Failed to decode goat"
def msgFailGasReward : String := "Failed to decode gas_reward"
def msgUnknownBridgeAction : String := "Unknown action for Bridge module"
def msgUnknownLockingAction : String := "Unknown action for Locking module"
def msgUnknownModule : String := "Unknown module for TxGoat"

/-- Mint record from goat_types/mod.rs: the economic effect of a variant. -/
structure Mint where
  address : List Nat
  amount : Nat
  tax : Nat
  deriving DecidableEq, Repr

-- Module / action byte constants from goat_types/mod.rs.
def BIRDGE_MODULE : Nat := 1
def LOCKING_MODULE : Nat := 2
def BRIDGE_DEPOIT_ACTION : Nat := 1
def BRIDGE_CANCEL2_ACTION : Nat := 2
def BRIDGE_PAID_ACTION : Nat := 3
def BITCOIN_NEW_BLOCK_ACTION : Nat := 4
def LOCKING_COMPLETE_UNLOCK_ACTION : Nat := 1
def LOCKING_DISTRIBUTE_REWARD_ACTION : Nat := 2

/-- Modelled from the spec: the chain's native-token address constant
(`NATIVE_TOKEN` lives in goat_types/constant.rs, which is not among the
core sources).  Its exact value does not affect any claim below; following
the repository's own unit-test vector it is taken as the all-zero
20-byte address. -/
def NATIVE_TOKEN : List Nat := List.replicate 20 0

-- ## DepositTx (tx_bridge.rs)

structure DepositTx where
  tx_id : List Nat
  tx_out : Nat
  target : List Nat
  amount : Nat
  tax : Nat
  deriving DecidableEq, Repr

def DepositTx.METHOD_ID : List Nat := [0x90, 0x41, 0x83, 0xcb]
def DepositTx.SIZE : Nat := 164

def DepositTx.deposit (tx : DepositTx) : Option Mint :=
  some { address := tx.target, amount := tx.amount, tax := tx.tax }

def DepositTx.withdraw (_ : DepositTx) : Option Mint := none

def DepositTx.decode (buf : List Nat) : DecodeResult DepositTx :=
  if buf.length ≠ DepositTx.SIZE then
    .error (.ListLengthMismatch DepositTx.SIZE buf.length)
  else
    match checkedSlice buf 0 4 with
    | none => .panic
    | some m =>
      if m.length ≠ 4 then .error (.Custom msgInvalidMethodId)
      else if m ≠ DepositTx.METHOD_ID then .error (.Custom msgNotDeposit)
      else
        match checkedSlice buf 4 32 with
        | none => .panic
        | some txid =>
          match checkedSlice buf 64 4 with
          | none => .panic
          | some s1 =>
            if s1.length ≠ 4 then .error (.Custom msgFailTxOut)
            else
              match checkedSlice buf 80 20 with
              | none => .panic
              | some tgt =>
                match checkedSlice buf 100 32 with
                | none => .panic
                | some s2 =>
                  if s2.length ≠ 32 then .error (.Custom msgFailAmount)
                  else
                    match checkedSlice buf 132 32 with
                    | none => .panic
                    | some s3 =>
                      if s3.length ≠ 32 then .error (.Custom msgFailTax)
                      else .ok { tx_id := txid, tx_out := fromBeBytes s1,
                                 target := tgt, amount := fromBeBytes s2,
                                 tax := fromBeBytes s3 }

-- ## Cancel2Tx (tx_bridge.rs)

structure Cancel2Tx where
  id : Nat
  deriving DecidableEq, Repr

def Cancel2Tx.METHOD_ID : List Nat := [0xc1, 0x9d, 0xd3, 0x20]
def Cancel2Tx.SIZE : Nat := 36

def Cancel2Tx.deposit (_ : Cancel2Tx) : Option Mint := none
def Cancel2Tx.withdraw (_ : Cancel2Tx) : Option Mint := none

def Cancel2Tx.decode (buf : List Nat) : DecodeResult Cancel2Tx :=
  if buf.length ≠ Cancel2Tx.SIZE then
    .error (.ListLengthMismatch Cancel2Tx.SIZE buf.length)
  else
    match checkedSlice buf 0 4 with
    | none => .panic
    | some m =>
      if m.length ≠ 4 then .error (.Custom msgInvalidMethodId)
      else if m ≠ Cancel2Tx.METHOD_ID then .error (.Custom msgNotCancel2)
      else
        match checkedSlice buf 4 32 with
        | none => .panic
        | some s1 =>
          if s1.length ≠ 32 then .error (.Custom msgFailId)
          else .ok { id := fromBeBytes s1 }

-- ## PaidTx (tx_bridge.rs)

structure PaidTx where
  id : Nat
  tx_id : List Nat
  tx_out : Nat
  amount : Nat
  deriving DecidableEq, Repr

def PaidTx.METHOD_ID : List Nat := [0xb6, 0x70, 0xab, 0x5e]
def PaidTx.SIZE : Nat := 132

def PaidTx.deposit (_ : PaidTx) : Option Mint := none
def PaidTx.withdraw (_ : PaidTx) : Option Mint := none

def PaidTx.decode (buf : List Nat) : DecodeResult PaidTx :=
  if buf.length ≠ PaidTx.SIZE then
    .error (.ListLengthMismatch PaidTx.SIZE buf.length)
  else
    match checkedSlice buf 0 4 with
    | none => .panic
    | some m =>
      if m.length ≠ 4 then .error (.Custom msgInvalidMethodId)
      else if m ≠ PaidTx.METHOD_ID then .error (.Custom msgNotPaid)
      else
        match checkedSlice buf 4 32 with
        | none => .panic
        | some s1 =>
          if s1.length ≠ 32 then .error (.Custom msgFailId)
          else
            match checkedSlice buf 36 32 with
            | none => .panic
            | some txid =>
              match checkedSlice buf 96 4 with
              | none => .panic
              | some s2 =>
                if s2.length ≠ 4 then .error (.Custom msgFailTxOut)
                else
                  match checkedSlice buf 100 32 with
                  | none => .panic
                  | some s3 =>
                    if s3.length ≠ 32 then .error (.Custom msgFailAmount)
                    else .ok { id := fromBeBytes s1, tx_id := txid,
                               tx_out := fromBeBytes s2, amount := fromBeBytes s3 }

-- ## NewBtcBlockTx (tx_bridge.rs)

structure NewBtcBlockTx where
  hash : List Nat
  deriving DecidableEq, Repr

def NewBtcBlockTx.METHOD_ID : List Nat := [0x94, 0xf4, 0x90, 0xbd]
def NewBtcBlockTx.SIZE : Nat := 36

def NewBtcBlockTx.deposit (_ : NewBtcBlockTx) : Option Mint := none
def NewBtcBlockTx.withdraw (_ : NewBtcBlockTx) : Option Mint := none

def NewBtcBlockTx.decode (buf : List Nat) : DecodeResult NewBtcBlockTx :=
  if buf.length ≠ NewBtcBlockTx.SIZE then
    .error (.ListLengthMismatch NewBtcBlockTx.SIZE buf.length)
  else
    match checkedSlice buf 0 4 with
    | none => .panic
    | some m =>
      if m.length ≠ 4 then .error (.Custom msgInvalidMethodId)
      else if m ≠ NewBtcBlockTx.METHOD_ID then .error (.Custom msgNotNewBlockHash)
      else
        match checkedSlice buf 4 32 with
        | none => .panic
        | some h32 => .ok { hash := h32 }

-- ## CompleteUnlockTx (tx_locking.rs)

structure CompleteUnlockTx where
  id : Nat
  recipient : List Nat
  token : List Nat
  amount : Nat
  deriving DecidableEq, Repr

def CompleteUnlockTx.METHOD_ID : List Nat := [0x00, 0xab, 0xa5, 0x1a]
def CompleteUnlockTx.SIZE : Nat := 132

def CompleteUnlockTx.deposit (_ : CompleteUnlockTx) : Option Mint := none

def CompleteUnlockTx.withdraw (tx : CompleteUnlockTx) : Option Mint :=
  if tx.token = NATIVE_TOKEN then
    some { address := tx.recipient, amount := tx.amount, tax := 0 }
  else none

def CompleteUnlockTx.decode (buf : List Nat) : DecodeResult CompleteUnlockTx :=
  if buf.length ≠ CompleteUnlockTx.SIZE then
    .error (.ListLengthMismatch CompleteUnlockTx.SIZE buf.length)
  else
    match checkedSlice buf 0 4 with
    | none => .panic
    | some m =>
      if m.length ≠ 4 then .error (.Custom msgInvalidMethodId)
      else if m ≠ CompleteUnlockTx.METHOD_ID then .error (.Custom msgNotCompleteUnlock)
      else
        match checkedSlice buf 28 8 with
        | none => .panic
        | some s1 =>
          if s1.length ≠ 8 then .error (.Custom msgFailId)
          else
            match checkedSlice buf 48 20 with
            | none => .panic
            | some rcpt =>
              match checkedSlice buf 80 20 with
              | none => .panic
              | some tok =>
                match checkedSlice buf 100 32 with
                | none => .panic
                | some s2 =>
                  if s2.length ≠ 32 then .error (.Custom msgFailAmount)
                  else .ok { id := fromBeBytes s1, recipient := rcpt,
                             token := tok, amount := fromBeBytes s2 }

-- ## DistributeRewardTx (tx_locking.rs)

structure DistributeRewardTx where
  id : Nat
  recipient : List Nat
  goat : Nat
  gas_reward : Nat
  deriving DecidableEq, Repr

def DistributeRewardTx.METHOD_ID : List Nat := [0xbd, 0x9f, 0xad, 0xb5]
def DistributeRewardTx.SIZE : Nat := 132

def DistributeRewardTx.deposit (_ : DistributeRewardTx) : Option Mint := none

def DistributeRewardTx.withdraw (tx : DistributeRewardTx) : Option Mint :=
  some { address := tx.recipient, amount := tx.gas_reward, tax := 0 }

def DistributeRewardTx.decode (buf : List Nat) : DecodeResult DistributeRewardTx :=
  if buf.length ≠ DistributeRewardTx.SIZE then
    .error (.ListLengthMismatch DistributeRewardTx.SIZE buf.length)
  else
    match checkedSlice buf 0 4 with
    | none => .panic
    | some m =>
      if m.length ≠ 4 then .error (.Custom msgInvalidMethodId)
      -- the source reuses the completeUnlock message here
      else if m ≠ DistributeRewardTx.METHOD_ID then .error (.Custom msgNotCompleteUnlock)
      else
        match checkedSlice buf 28 8 with
        | none => .panic
        | some s1 =>
          if s1.length ≠ 8 then .error (.Custom msgFailId)
          else
            match checkedSlice buf 48 20 with
            | none => .panic
            | some rcpt =>
              match checkedSlice buf 68 32 with
              | none => .panic
              | some s2 =>
                if s2.length ≠ 32 then .error (.Custom msgFailGoat)
                else
                  match checkedSlice buf 100 32 with
                  | none => .panic
                  | some s3 =>
                    if s3.length ≠ 32 then .error (.Custom msgFailGasReward)
                    else .ok { id := fromBeBytes s1, recipient := rcpt,
                               goat := fromBeBytes s2, gas_reward := fromBeBytes s3 }

-- ## Tagged union and dispatcher (goat_types/tx.rs)

inductive TxGoatInner where
  | NewBtcBlockTx (tx : NewBtcBlockTx)
  | CompleteUnlockTx (tx : CompleteUnlockTx)
  | DistributeRewardTx (tx : DistributeRewardTx)
  | DepositTx (tx : DepositTx)
  | Cancel2Tx (tx : Cancel2Tx)
  | PaidTx (tx : PaidTx)
  deriving DecidableEq, Repr

def TxGoatInner.deposit : TxGoatInner → Option Mint
  | .NewBtcBlockTx tx => tx.deposit
  | .CompleteUnlockTx tx => tx.deposit
  | .DistributeRewardTx tx => tx.deposit
  | .DepositTx tx => tx.deposit
  | .Cancel2Tx tx => tx.deposit
  | .PaidTx tx => tx.deposit

def TxGoatInner.withdraw : TxGoatInner → Option Mint
  | .NewBtcBlockTx tx => tx.withdraw
  | .CompleteUnlockTx tx => tx.withdraw
  | .DistributeRewardTx tx => tx.withdraw
  | .DepositTx tx => tx.withdraw
  | .Cancel2Tx tx => tx.withdraw
  | .PaidTx tx => tx.withdraw

/-- decode_goat_tx from goat_types/tx.rs: route on (module, action). -/
def decode_goat_tx (module action : Nat) (buf : List Nat) : DecodeResult TxGoatInner :=
  if module = BIRDGE_MODULE then
    if action = BITCOIN_NEW_BLOCK_ACTION then
      (NewBtcBlockTx.decode buf).map TxGoatInner.NewBtcBlockTx
    else if action = BRIDGE_CANCEL2_ACTION then
      (Cancel2Tx.decode buf).map TxGoatInner.Cancel2Tx
    else if action = BRIDGE_DEPOIT_ACTION then
      (DepositTx.decode buf).map TxGoatInner.DepositTx
    else if action = BRIDGE_PAID_ACTION then
      (PaidTx.decode buf).map TxGoatInner.PaidTx
    else .error (.Custom msgUnknownBridgeAction)
  else if module = LOCKING_MODULE then
    if action = LOCKING_COMPLETE_UNLOCK_ACTION then
      (CompleteUnlockTx.decode buf).map TxGoatInner.CompleteUnlockTx
    else if action = LOCKING_DISTRIBUTE_REWARD_ACTION then
      (DistributeRewardTx.decode buf).map TxGoatInner.DistributeRewardTx
    else .error (.Custom msgUnknownLockingAction)
  else .error (.Custom msgUnknownModule)

/-- Spec wording of claim C3's routing table, for comparison with
decode_goat_tx: the six (module, action) pairs route to the matching
decoder wrapped in the matching tagged variant, any other action for a
known module fails with that module's unknown-action error, and any other
module fails with the unknown-module error. -/
def decodeGoatTxSpecC3 (module action : Nat) (buf : List Nat) : DecodeResult TxGoatInner :=
  if module = 1 ∧ action = 1 then (DepositTx.decode buf).map TxGoatInner.DepositTx
  else if module = 1 ∧ action = 2 then (Cancel2Tx.decode buf).map TxGoatInner.Cancel2Tx
  else if module = 1 ∧ action = 3 then (PaidTx.decode buf).map TxGoatInner.PaidTx
  else if module = 1 ∧ action = 4 then (NewBtcBlockTx.decode buf).map TxGoatInner.NewBtcBlockTx
  else if module = 2 ∧ action = 1 then (CompleteUnlockTx.decode buf).map TxGoatInner.CompleteUnlockTx
  else if module = 2 ∧ action = 2 then (DistributeRewardTx.decode buf).map TxGoatInner.DistributeRewardTx
  else if module = 1 then .error (.Custom msgUnknownBridgeAction)
  else if module = 2 then .error (.Custom msgUnknownLockingAction)
  else .error (.Custom msgUnknownModule)

/-- Number of the six variant decoders that accept a given buffer. -/
def okCount (buf : List Nat) : Nat :=
  (if (NewBtcBlockTx.decode buf).isOk then 1 else 0) +
  (if (Cancel2Tx.decode buf).isOk then 1 else 0) +
  (if (PaidTx.decode buf).isOk then 1 else 0) +
  (if (DepositTx.decode buf).isOk then 1 else 0) +
  (if (CompleteUnlockTx.decode buf).isOk then 1 else 0) +
  (if (DistributeRewardTx.decode buf).isOk then 1 else 0)

-- ## RLP primitives (alloy_rlp, consumed as an external interface)

/-- Minimal big-endian byte representation of a Nat ([] for 0). -/
def beBytes (n : Nat) : List Nat :=
  if h : n = 0 then [] else beBytes (n / 256) ++ [n % 256]
  termination_by n
  decreasing_by exact Nat.div_lt_self (Nat.pos_of_ne_zero h) (by norm_num)

/-- RLP encoding of an unsigned integer (alloy_rlp Encodable for uN). -/
def rlpEncodeNat (n : Nat) : List Nat :=
  if n = 0 then [0x80]
  else if n < 0x80 then [n]
  else (0x80 + (beBytes n).length) :: beBytes n

/-- RLP encoding of a byte string (alloy_rlp Encodable for Bytes). -/
def rlpEncodeBytes (bs : List Nat) : List Nat :=
  if bs.length = 1 ∧ bs.headD 0 < 0x80 then bs
  else if bs.length ≤ 55 then (0x80 + bs.length) :: bs
  else (0xb7 + (beBytes bs.length).length) :: (beBytes bs.length ++ bs)

/-- RLP decoding of an unsigned integer of at most maxB bytes
(alloy_rlp Decodable for uN, with its canonicality checks). -/
def rlpDecodeNat (maxB : Nat) (buf : List Nat) : Except RlpError (Nat × List Nat) :=
  match buf with
  | [] => .error .InputTooShort
  | b :: rest =>
    if b < 0x80 then .ok (b, rest)
    else if b ≤ 0xb7 then
      let len := b - 0x80
      if maxB < len then .error .Overflow
      else if rest.length < len then .error .InputTooShort
      else if len = 1 ∧ rest.headD 0 < 0x80 then .error .NonCanonicalSingleByte
      else if (rest.take len).headD 1 = 0 then .error .LeadingZero
      else .ok (fromBeBytes (rest.take len), rest.drop len)
    else if b ≤ 0xbf then .error .Overflow
    else .error .UnexpectedList

/-- RLP decoding of a byte string (alloy_rlp Decodable for Bytes, with the
canonical-header checks of Header::decode). -/
def rlpDecodeBytes (buf : List Nat) : Except RlpError (List Nat × List Nat) :=
  match buf with
  | [] => .error .InputTooShort
  | b :: rest =>
    if b < 0x80 then .ok ([b], rest)
    else if b ≤ 0xb7 then
      let len := b - 0x80
      if rest.length < len then .error .InputTooShort
      else if len = 1 ∧ rest.headD 0 < 0x80 then .error .NonCanonicalSingleByte
      else .ok (rest.take len, rest.drop len)
    else if b ≤ 0xbf then
      let lenlen := b - 0xb7
      if rest.length < lenlen then .error .InputTooShort
      else if (rest.take lenlen).headD 1 = 0 then .error .LeadingZero
      else
        let len := fromBeBytes (rest.take lenlen)
        if len ≤ 55 then .error .NonCanonicalSize
        else if (rest.drop lenlen).length < len then .error .InputTooShort
        else .ok ((rest.drop lenlen).take len, (rest.drop lenlen).drop len)
    else .error .UnexpectedList

-- ## Outer envelope (goat.rs)

def GOAT_CHAIN_ID : Nat := 2345
def GOAT_TESTNET_CHAIN_ID : Nat := 48816

structure TxGoat where
  module : Nat
  action : Nat
  nonce : Nat
  input : List Nat
  inner : TxGoatInner
  chain_id : Nat
  deriving DecidableEq, Repr

/-- rlp_encode_fields from goat.rs: module, action, nonce, input, in order;
neither inner nor chain_id is written. -/
def TxGoat.rlp_encode_fields (tx : TxGoat) : List Nat :=
  rlpEncodeNat tx.module ++ rlpEncodeNat tx.action ++
    rlpEncodeNat tx.nonce ++ rlpEncodeBytes tx.input

/-- rlp_decode_fields from goat.rs: decode the four fields, re-derive the
inner value through the dispatcher, and fix chain_id to GOAT_CHAIN_ID. -/
def TxGoat.rlp_decode_fields (buf : List Nat) : DecodeResult (TxGoat × List Nat) :=
  match rlpDecodeNat 1 buf with
  | .error e => .error e
  | .ok (m, b1) =>
    match rlpDecodeNat 1 b1 with
    | .error e => .error e
    | .ok (a, b2) =>
      match rlpDecodeNat 8 b2 with
      | .error e => .error e
      | .ok (n, b3) =>
        match rlpDecodeBytes b3 with
        | .error e => .error e
        | .ok (inp, b4) =>
          match decode_goat_tx m a inp with
          | .panic => .panic
          | .error e => .error e
          | .ok inner =>
            .ok ({ module := m, action := a, nonce := n, input := inp,
                   inner := inner, chain_id := GOAT_CHAIN_ID }, b4)

/-- Transaction::chain_id for TxGoat: a build-time constant, selected by the
goat-testnet feature flag, independent of the envelope value. -/
def TxGoat.chainId (testnet : Bool) (_ : TxGoat) : Option Nat :=
  some (if testnet then GOAT_TESTNET_CHAIN_ID else GOAT_CHAIN_ID)

-- ## Concrete byte vectors (from the repository's own unit tests)

/-- The 164-byte deposit payload of the deposit unit test / spec scenario. -/
def depositBytes : List Nat :=
  [0x90, 0x41, 0x83, 0xcb] ++
  [0x15, 0xbb, 0x90, 0xfa, 0x63, 0xb9, 0xa9, 0x2e, 0x31, 0xd3, 0x1f, 0x8d,
   0x8d, 0x30, 0xbf, 0x8d, 0xa9, 0xd9, 0xa2, 0x13, 0x14, 0xc6, 0x5d, 0xd5,
   0x17, 0xf2, 0x77, 0x40, 0xae, 0x67, 0x6d, 0x6e] ++
  (List.replicate 28 0 ++ [0x2a, 0x71, 0xa7, 0x78]) ++
  (List.replicate 12 0 ++
   [0x5e, 0x4e, 0x4d, 0x79, 0xf0, 0x81, 0x20, 0x35, 0x2f, 0x04, 0xd6, 0x38,
    0xad, 0xec, 0x7d, 0x38, 0x92, 0xb2, 0x80, 0x45]) ++
  (List.replicate 28 0 ++ [0x15, 0x7f, 0x7f, 0x97]) ++
  (List.replicate 31 0 ++ [0x64])

/-- The tx_id word of the deposit scenario. -/
def depositTxIdBytes : List Nat :=
  [0x15, 0xbb, 0x90, 0xfa, 0x63, 0xb9, 0xa9, 0x2e, 0x31, 0xd3, 0x1f, 0x8d,
   0x8d, 0x30, 0xbf, 0x8d, 0xa9, 0xd9, 0xa2, 0x13, 0x14, 0xc6, 0x5d, 0xd5,
   0x17, 0xf2, 0x77, 0x40, 0xae, 0x67, 0x6d, 0x6e]

/-- The target address of the deposit scenario. -/
def depositTargetBytes : List Nat :=
  [0x5e, 0x4e, 0x4d, 0x79, 0xf0, 0x81, 0x20, 0x35, 0x2f, 0x04, 0xd6, 0x38,
   0xad, 0xec, 0x7d, 0x38, 0x92, 0xb2, 0x80, 0x45]

/-- The 36-byte newBlockHash payload of the btc-block unit test. -/
def newBtcBytes : List Nat :=
  [0x94, 0xf4, 0x90, 0xbd] ++
  [0xbb, 0x7b, 0xa5, 0xe4, 0x83, 0x07, 0x30, 0xdf, 0xa9, 0x7c, 0x1e, 0xaa,
   0xf1, 0x99, 0xa8, 0xef, 0x8e, 0xa2, 0xa8, 0x65, 0xca, 0x44, 0xc6, 0x00,
   0xfa, 0x03, 0x27, 0x72, 0xa7, 0xaf, 0x9e, 0xdc]

/-- A concrete valid envelope wrapping the newBlockHash payload. -/
def sampleEnvelope : TxGoat :=
  { module := 1, action := 4, nonce := 0, input := newBtcBytes,
    inner := .NewBtcBlockTx { hash := newBtcBytes.drop 4 },
    chain_id := GOAT_CHAIN_ID }

/-- The RLP field encoding of sampleEnvelope, written out. -/
def sampleEnvelopeBytes : List Nat :=
  [0x01, 0x04, 0x80, 0xa4] ++ newBtcBytes

-- ## Helper lemmas: decode characterizations

theorem DepositTx.deposit_decode_len_err (buf : List Nat) (h : buf.length ≠ 164) :
    DepositTx.decode buf = .error (.ListLengthMismatch 164 buf.length) := by
  simp [DepositTx.decode, DepositTx.SIZE, h]

theorem DepositTx.deposit_decode_eq_of_len (buf : List Nat) (h : buf.length = 164) :
    DepositTx.decode buf =
      if sliceAt buf 0 4 = DepositTx.METHOD_ID then
        .ok { tx_id := sliceAt buf 4 32, tx_out := fromBeBytes (sliceAt buf 64 4),
              target := sliceAt buf 80 20, amount := fromBeBytes (sliceAt buf 100 32),
              tax := fromBeBytes (sliceAt buf 132 32) }
      else .error (.Custom msgNotDeposit) := by
  simp only [DepositTx.decode, checkedSlice, sliceAt, h, DepositTx.SIZE]
  norm_num [h, List.length_take, List.length_drop]

theorem Cancel2Tx.cancel2_decode_len_err (buf : List Nat) (h : buf.length ≠ 36) :
    Cancel2Tx.decode buf = .error (.ListLengthMismatch 36 buf.length) := by
  simp [Cancel2Tx.decode, Cancel2Tx.SIZE, h]

theorem Cancel2Tx.cancel2_decode_eq_of_len (buf : List Nat) (h : buf.length = 36) :
    Cancel2Tx.decode buf =
      if sliceAt buf 0 4 = Cancel2Tx.METHOD_ID then
        .ok { id := fromBeBytes (sliceAt buf 4 32) }
      else .error (.Custom msgNotCancel2) := by
  simp only [Cancel2Tx.decode, checkedSlice, sliceAt, h, Cancel2Tx.SIZE]
  norm_num [h, List.length_take, List.length_drop]

theorem PaidTx.paid_decode_len_err (buf : List Nat) (h : buf.length ≠ 132) :
    PaidTx.decode buf = .error (.ListLengthMismatch 132 buf.length) := by
  simp [PaidTx.decode, PaidTx.SIZE, h]

theorem PaidTx.paid_decode_eq_of_len (buf : List Nat) (h : buf.length = 132) :
    PaidTx.decode buf =
      if sliceAt buf 0 4 = PaidTx.METHOD_ID then
        .ok { id := fromBeBytes (sliceAt buf 4 32), tx_id := sliceAt buf 36 32,
              tx_out := fromBeBytes (sliceAt buf 96 4),
              amount := fromBeBytes (sliceAt buf 100 32) }
      else .error (.Custom msgNotPaid) := by
  simp only [PaidTx.decode, checkedSlice, sliceAt, h, PaidTx.SIZE]
  norm_num [h, List.length_take, List.length_drop]

theorem NewBtcBlockTx.newbtc_decode_len_err (buf : List Nat) (h : buf.length ≠ 36) :
    NewBtcBlockTx.decode buf = .error (.ListLengthMismatch 36 buf.length) := by
  simp [NewBtcBlockTx.decode, NewBtcBlockTx.SIZE, h]

theorem NewBtcBlockTx.newbtc_decode_eq_of_len (buf : List Nat) (h : buf.length = 36) :
    NewBtcBlockTx.decode buf =
      if sliceAt buf 0 4 = NewBtcBlockTx.METHOD_ID then
        .ok { hash := sliceAt buf 4 32 }
      else .error (.Custom msgNotNewBlockHash) := by
  simp only [NewBtcBlockTx.decode, checkedSlice, sliceAt, h, NewBtcBlockTx.SIZE]
  norm_num [h, List.length_take, List.length_drop]

theorem CompleteUnlockTx.unlock_decode_len_err (buf : List Nat) (h : buf.length ≠ 132) :
    CompleteUnlockTx.decode buf = .error (.ListLengthMismatch 132 buf.length) := by
  simp [CompleteUnlockTx.decode, CompleteUnlockTx.SIZE, h]

theorem CompleteUnlockTx.unlock_decode_eq_of_len (buf : List Nat) (h : buf.length = 132) :
    CompleteUnlockTx.decode buf =
      if sliceAt buf 0 4 = CompleteUnlockTx.METHOD_ID then
        .ok { id := fromBeBytes (sliceAt buf 28 8), recipient := sliceAt buf 48 20,
              token := sliceAt buf 80 20, amount := fromBeBytes (sliceAt buf 100 32) }
      else .error (.Custom msgNotCompleteUnlock) := by
  simp only [CompleteUnlockTx.decode, checkedSlice, sliceAt, h, CompleteUnlockTx.SIZE]
  norm_num [h, List.length_take, List.length_drop]

theorem DistributeRewardTx.reward_decode_len_err (buf : List Nat) (h : buf.length ≠ 132) :
    DistributeRewardTx.decode buf = .error (.ListLengthMismatch 132 buf.length) := by
  simp [DistributeRewardTx.decode, DistributeRewardTx.SIZE, h]

theorem DistributeRewardTx.reward_decode_eq_of_len (buf : List Nat) (h : buf.length = 132) :
    DistributeRewardTx.decode buf =
      if sliceAt buf 0 4 = DistributeRewardTx.METHOD_ID then
        .ok { id := fromBeBytes (sliceAt buf 28 8), recipient := sliceAt buf 48 20,
              goat := fromBeBytes (sliceAt buf 68 32),
              gas_reward := fromBeBytes (sliceAt buf 100 32) }
      else .error (.Custom msgNotCompleteUnlock) := by
  simp only [DistributeRewardTx.decode, checkedSlice, sliceAt, h, DistributeRewardTx.SIZE]
  norm_num [h, List.length_take, List.length_drop]

theorem DepositTx.deposit_decode_ok_shape (buf : List Nat) (t : DepositTx)
    (h : DepositTx.decode buf = .ok t) :
    buf.length = 164 ∧ sliceAt buf 0 4 = DepositTx.METHOD_ID := by
  by_cases hl : buf.length = 164
  · refine ⟨hl, ?_⟩
    rw [DepositTx.deposit_decode_eq_of_len buf hl] at h
    by_cases hs : sliceAt buf 0 4 = DepositTx.METHOD_ID
    · exact hs
    · simp [hs] at h
  · rw [DepositTx.deposit_decode_len_err buf hl] at h
    simp at h

theorem Cancel2Tx.cancel2_decode_ok_shape (buf : List Nat) (t : Cancel2Tx)
    (h : Cancel2Tx.decode buf = .ok t) :
    buf.length = 36 ∧ sliceAt buf 0 4 = Cancel2Tx.METHOD_ID := by
  by_cases hl : buf.length = 36
  · refine ⟨hl, ?_⟩
    rw [Cancel2Tx.cancel2_decode_eq_of_len buf hl] at h
    by_cases hs : sliceAt buf 0 4 = Cancel2Tx.METHOD_ID
    · exact hs
    · simp [hs] at h
  · rw [Cancel2Tx.cancel2_decode_len_err buf hl] at h
    simp at h

theorem PaidTx.paid_decode_ok_shape (buf : List Nat) (t : PaidTx)
    (h : PaidTx.decode buf = .ok t) :
    buf.length = 132 ∧ sliceAt buf 0 4 = PaidTx.METHOD_ID := by
  by_cases hl : buf.length = 132
  · refine ⟨hl, ?_⟩
    rw [PaidTx.paid_decode_eq_of_len buf hl] at h
    by_cases hs : sliceAt buf 0 4 = PaidTx.METHOD_ID
    · exact hs
    · simp [hs] at h
  · rw [PaidTx.paid_decode_len_err buf hl] at h
    simp at h

theorem NewBtcBlockTx.newbtc_decode_ok_shape (buf : List Nat) (t : NewBtcBlockTx)
    (h : NewBtcBlockTx.decode buf = .ok t) :
    buf.length = 36 ∧ sliceAt buf 0 4 = NewBtcBlockTx.METHOD_ID := by
  by_cases hl : buf.length = 36
  · refine ⟨hl, ?_⟩
    rw [NewBtcBlockTx.newbtc_decode_eq_of_len buf hl] at h
    by_cases hs : sliceAt buf 0 4 = NewBtcBlockTx.METHOD_ID
    · exact hs
    · simp [hs] at h
  · rw [NewBtcBlockTx.newbtc_decode_len_err buf hl] at h
    simp at h

theorem CompleteUnlockTx.unlock_decode_ok_shape (buf : List Nat) (t : CompleteUnlockTx)
    (h : CompleteUnlockTx.decode buf = .ok t) :
    buf.length = 132 ∧ sliceAt buf 0 4 = CompleteUnlockTx.METHOD_ID := by
  by_cases hl : buf.length = 132
  · refine ⟨hl, ?_⟩
    rw [CompleteUnlockTx.unlock_decode_eq_of_len buf hl] at h
    by_cases hs : sliceAt buf 0 4 = CompleteUnlockTx.METHOD_ID
    · exact hs
    · simp [hs] at h
  · rw [CompleteUnlockTx.unlock_decode_len_err buf hl] at h
    simp at h

theorem DistributeRewardTx.reward_decode_ok_shape (buf : List Nat) (t : DistributeRewardTx)
    (h : DistributeRewardTx.decode buf = .ok t) :
    buf.length = 132 ∧ sliceAt buf 0 4 = DistributeRewardTx.METHOD_ID := by
  by_cases hl : buf.length = 132
  · refine ⟨hl, ?_⟩
    rw [DistributeRewardTx.reward_decode_eq_of_len buf hl] at h
    by_cases hs : sliceAt buf 0 4 = DistributeRewardTx.METHOD_ID
    · exact hs
    · simp [hs] at h
  · rw [DistributeRewardTx.reward_decode_len_err buf hl] at h
    simp at h

theorem okCount_le_one (buf : List Nat) : okCount buf ≤ 1 := by
  have h1 : (if (NewBtcBlockTx.decode buf).isOk then 1 else 0) ≤
      (if sliceAt buf 0 4 = NewBtcBlockTx.METHOD_ID then 1 else 0) := by
    cases hd : NewBtcBlockTx.decode buf with
    | ok t => simp [DecodeResult.isOk, (NewBtcBlockTx.newbtc_decode_ok_shape buf t hd).2]
    | error e => simp [DecodeResult.isOk]
    | panic => simp [DecodeResult.isOk]
  have h2 : (if (Cancel2Tx.decode buf).isOk then 1 else 0) ≤
      (if sliceAt buf 0 4 = Cancel2Tx.METHOD_ID then 1 else 0) := by
    cases hd : Cancel2Tx.decode buf with
    | ok t => simp [DecodeResult.isOk, (Cancel2Tx.cancel2_decode_ok_shape buf t hd).2]
    | error e => simp [DecodeResult.isOk]
    | panic => simp [DecodeResult.isOk]
  have h3 : (if (PaidTx.decode buf).isOk then 1 else 0) ≤
      (if sliceAt buf 0 4 = PaidTx.METHOD_ID then 1 else 0) := by
    cases hd : PaidTx.decode buf with
    | ok t => simp [DecodeResult.isOk, (PaidTx.paid_decode_ok_shape buf t hd).2]
    | error e => simp [DecodeResult.isOk]
    | panic => simp [DecodeResult.isOk]
  have h4 : (if (DepositTx.decode buf).isOk then 1 else 0) ≤
      (if sliceAt buf 0 4 = DepositTx.METHOD_ID then 1 else 0) := by
    cases hd : DepositTx.decode buf with
    | ok t => simp [DecodeResult.isOk, (DepositTx.deposit_decode_ok_shape buf t hd).2]
    | error e => simp [DecodeResult.isOk]
    | panic => simp [DecodeResult.isOk]
  have h5 : (if (CompleteUnlockTx.decode buf).isOk then 1 else 0) ≤
      (if sliceAt buf 0 4 = CompleteUnlockTx.METHOD_ID then 1 else 0) := by
    cases hd : CompleteUnlockTx.decode buf with
    | ok t => simp [DecodeResult.isOk, (CompleteUnlockTx.unlock_decode_ok_shape buf t hd).2]
    | error e => simp [DecodeResult.isOk]
    | panic => simp [DecodeResult.isOk]
  have h6 : (if (DistributeRewardTx.decode buf).isOk then 1 else 0) ≤
      (if sliceAt buf 0 4 = DistributeRewardTx.METHOD_ID then 1 else 0) := by
    cases hd : DistributeRewardTx.decode buf with
    | ok t => simp [DecodeResult.isOk, (DistributeRewardTx.reward_decode_ok_shape buf t hd).2]
    | error e => simp [DecodeResult.isOk]
    | panic => simp [DecodeResult.isOk]
  have key : (if sliceAt buf 0 4 = NewBtcBlockTx.METHOD_ID then 1 else 0) +
      (if sliceAt buf 0 4 = Cancel2Tx.METHOD_ID then 1 else 0) +
      (if sliceAt buf 0 4 = PaidTx.METHOD_ID then 1 else 0) +
      (if sliceAt buf 0 4 = DepositTx.METHOD_ID then 1 else 0) +
      (if sliceAt buf 0 4 = CompleteUnlockTx.METHOD_ID then 1 else 0) +
      (if sliceAt buf 0 4 = DistributeRewardTx.METHOD_ID then 1 else 0) ≤ 1 := by
    by_cases e1 : sliceAt buf 0 4 = NewBtcBlockTx.METHOD_ID
    · simp only [e1]
      decide
    · by_cases e2 : sliceAt buf 0 4 = Cancel2Tx.METHOD_ID
      · simp only [e2]
        decide
      · by_cases e3 : sliceAt buf 0 4 = PaidTx.METHOD_ID
        · simp only [e3]
          decide
        · by_cases e4 : sliceAt buf 0 4 = DepositTx.METHOD_ID
          · simp only [e4]
            decide
          · by_cases e5 : sliceAt buf 0 4 = CompleteUnlockTx.METHOD_ID
            · simp only [e5]
              decide
            · by_cases e6 : sliceAt buf 0 4 = DistributeRewardTx.METHOD_ID
              · simp only [e6]
                decide
              · simp [e1, e2, e3, e4, e5, e6]
  unfold okCount
  omega

-- ## Claims

/-- Claim C1: DepositTx has deposit() = Some(Mint with the target, amount and
tax fields) and withdraw() = None; CompleteUnlockTx has deposit() = None and
withdraw() = Some(Mint with recipient, amount, zero tax) exactly when its
token equals the native-token constant, otherwise None; DistributeRewardTx
has deposit() = None and withdraw() = Some(Mint with recipient, gas_reward,
zero tax); NewBtcBlockTx, Cancel2Tx and PaidTx return None for both.  Hence
exactly one of deposit()/withdraw() is non-empty for DepositTx,
CompleteUnlockTx-with-native-token and DistributeRewardTx, and both are
empty in every other case. -/
theorem claim_C1 (d : DepositTx) (c : CompleteUnlockTx) (r : DistributeRewardTx)
    (nb : NewBtcBlockTx) (cc : Cancel2Tx) (p : PaidTx) :
    d.deposit = some { address := d.target, amount := d.amount, tax := d.tax } ∧
    d.withdraw = none ∧
    c.deposit = none ∧
    c.withdraw = (if c.token = NATIVE_TOKEN then
        some { address := c.recipient, amount := c.amount, tax := 0 } else none) ∧
    r.deposit = none ∧
    r.withdraw = some { address := r.recipient, amount := r.gas_reward, tax := 0 } ∧
    nb.deposit = none ∧ nb.withdraw = none ∧
    cc.deposit = none ∧ cc.withdraw = none ∧
    p.deposit = none ∧ p.withdraw = none :=
  ⟨rfl, rfl, rfl, rfl, rfl, rfl, rfl, rfl, rfl, rfl, rfl, rfl⟩

set_option maxRecDepth 10000 in
/-- Claim C2: DepositTx::decode on the concrete 164-byte buffer (method id
0x904183cb, the tx_id word, tx_out word with low bytes 0x2a71a778, target
word with the 20-byte address, amount word 0x157f7f97, tax word 0x64)
returns Ok of the expected DepositTx, whose deposit() yields the
corresponding Mint. -/
theorem claim_C2 :
    DepositTx.decode depositBytes =
      .ok { tx_id := depositTxIdBytes, tx_out := 0x2a71a778,
            target := depositTargetBytes, amount := 0x157f7f97, tax := 100 } ∧
    DepositTx.deposit { tx_id := depositTxIdBytes, tx_out := 0x2a71a778,
                        target := depositTargetBytes, amount := 0x157f7f97,
                        tax := 100 } =
      some { address := depositTargetBytes, amount := 0x157f7f97, tax := 100 } := by
  constructor
  · decide
  · rfl

/-- Claim C3: decode_goat_tx routes exactly the six (module, action) pairs to
the matching decoder, wrapped in the matching tagged variant, and fails on
every other pair, distinguishing an unknown action for a known module from
an unknown module; in particular (1, 99) and (2, 99) fail with the
unknown-action errors and module 99 fails with the unknown-module error for
every action. -/
theorem claim_C3 (m a : Nat) (buf : List Nat) :
    decode_goat_tx m a buf = decodeGoatTxSpecC3 m a buf ∧
    decode_goat_tx 1 99 buf = .error (.Custom msgUnknownBridgeAction) ∧
    decode_goat_tx 2 99 buf = .error (.Custom msgUnknownLockingAction) ∧
    decode_goat_tx 99 a buf = .error (.Custom msgUnknownModule) := by
  refine ⟨?_, by norm_num [decode_goat_tx, BIRDGE_MODULE, LOCKING_MODULE,
      BITCOIN_NEW_BLOCK_ACTION, BRIDGE_CANCEL2_ACTION, BRIDGE_DEPOIT_ACTION,
      BRIDGE_PAID_ACTION],
    by norm_num [decode_goat_tx, BIRDGE_MODULE, LOCKING_MODULE,
      LOCKING_COMPLETE_UNLOCK_ACTION, LOCKING_DISTRIBUTE_REWARD_ACTION],
    by norm_num [decode_goat_tx, BIRDGE_MODULE, LOCKING_MODULE]⟩
  unfold decode_goat_tx decodeGoatTxSpecC3
  simp only [BIRDGE_MODULE, LOCKING_MODULE, BRIDGE_DEPOIT_ACTION,
    BRIDGE_CANCEL2_ACTION, BRIDGE_PAID_ACTION, BITCOIN_NEW_BLOCK_ACTION,
    LOCKING_COMPLETE_UNLOCK_ACTION, LOCKING_DISTRIBUTE_REWARD_ACTION]
  split_ifs <;> simp_all

/-- Claim C4: for each of the six variants, decoding any buffer whose length
differs from the variant's SIZE (36/36/132/164/132/132) fails with the
LengthMismatch error carrying the expected size and the actual length, and
never returns Ok. -/
theorem claim_C4 (buf : List Nat) :
    (buf.length ≠ 36 → NewBtcBlockTx.decode buf = .error (.ListLengthMismatch 36 buf.length)) ∧
    (buf.length ≠ 36 → Cancel2Tx.decode buf = .error (.ListLengthMismatch 36 buf.length)) ∧
    (buf.length ≠ 132 → PaidTx.decode buf = .error (.ListLengthMismatch 132 buf.length)) ∧
    (buf.length ≠ 164 → DepositTx.decode buf = .error (.ListLengthMismatch 164 buf.length)) ∧
    (buf.length ≠ 132 → CompleteUnlockTx.decode buf = .error (.ListLengthMismatch 132 buf.length)) ∧
    (buf.length ≠ 132 → DistributeRewardTx.decode buf = .error (.ListLengthMismatch 132 buf.length)) :=
  ⟨NewBtcBlockTx.newbtc_decode_len_err buf, Cancel2Tx.cancel2_decode_len_err buf,
   PaidTx.paid_decode_len_err buf, DepositTx.deposit_decode_len_err buf,
   CompleteUnlockTx.unlock_decode_len_err buf, DistributeRewardTx.reward_decode_len_err buf⟩

/-- Witness for C4 at the concrete length-1 buffer. -/
theorem claim_C4_witness :
    NewBtcBlockTx.decode [0] = .error (.ListLengthMismatch 36 1) ∧
    Cancel2Tx.decode [0] = .error (.ListLengthMismatch 36 1) ∧
    PaidTx.decode [0] = .error (.ListLengthMismatch 132 1) ∧
    DepositTx.decode [0] = .error (.ListLengthMismatch 164 1) ∧
    CompleteUnlockTx.decode [0] = .error (.ListLengthMismatch 132 1) ∧
    DistributeRewardTx.decode [0] = .error (.ListLengthMismatch 132 1) :=
  have h := claim_C4 [0]
  ⟨h.1 (by decide), h.2.1 (by decide), h.2.2.1 (by decide),
   h.2.2.2.1 (by decide), h.2.2.2.2.1 (by decide), h.2.2.2.2.2 (by decide)⟩

/-- Claim C5: for each of the six variants, decoding a buffer of the correct
length whose first 4 bytes differ from the variant's method selector fails
with that variant's selector-mismatch error and never returns Ok. -/
theorem claim_C5 (buf : List Nat) :
    (buf.length = 36 → sliceAt buf 0 4 ≠ NewBtcBlockTx.METHOD_ID →
      NewBtcBlockTx.decode buf = .error (.Custom msgNotNewBlockHash)) ∧
    (buf.length = 36 → sliceAt buf 0 4 ≠ Cancel2Tx.METHOD_ID →
      Cancel2Tx.decode buf = .error (.Custom msgNotCancel2)) ∧
    (buf.length = 132 → sliceAt buf 0 4 ≠ PaidTx.METHOD_ID →
      PaidTx.decode buf = .error (.Custom msgNotPaid)) ∧
    (buf.length = 164 → sliceAt buf 0 4 ≠ DepositTx.METHOD_ID →
      DepositTx.decode buf = .error (.Custom msgNotDeposit)) ∧
    (buf.length = 132 → sliceAt buf 0 4 ≠ CompleteUnlockTx.METHOD_ID →
      CompleteUnlockTx.decode buf = .error (.Custom msgNotCompleteUnlock)) ∧
    (buf.length = 132 → sliceAt buf 0 4 ≠ DistributeRewardTx.METHOD_ID →
      DistributeRewardTx.decode buf = .error (.Custom msgNotCompleteUnlock)) := by
  refine ⟨fun hl hs => ?_, fun hl hs => ?_, fun hl hs => ?_,
    fun hl hs => ?_, fun hl hs => ?_, fun hl hs => ?_⟩
  · rw [NewBtcBlockTx.newbtc_decode_eq_of_len buf hl]
    simp [hs]
  · rw [Cancel2Tx.cancel2_decode_eq_of_len buf hl]
    simp [hs]
  · rw [PaidTx.paid_decode_eq_of_len buf hl]
    simp [hs]
  · rw [DepositTx.deposit_decode_eq_of_len buf hl]
    simp [hs]
  · rw [CompleteUnlockTx.unlock_decode_eq_of_len buf hl]
    simp [hs]
  · rw [DistributeRewardTx.reward_decode_eq_of_len buf hl]
    simp [hs]

/-- Witness for C5 at concrete all-zero buffers of each correct size. -/
theorem claim_C5_witness :
    NewBtcBlockTx.decode (List.replicate 36 0) = .error (.Custom msgNotNewBlockHash) ∧
    Cancel2Tx.decode (List.replicate 36 0) = .error (.Custom msgNotCancel2) ∧
    PaidTx.decode (List.replicate 132 0) = .error (.Custom msgNotPaid) ∧
    DepositTx.decode (List.replicate 164 0) = .error (.Custom msgNotDeposit) ∧
    CompleteUnlockTx.decode (List.replicate 132 0) = .error (.Custom msgNotCompleteUnlock) ∧
    DistributeRewardTx.decode (List.replicate 132 0) = .error (.Custom msgNotCompleteUnlock) :=
  ⟨(claim_C5 (List.replicate 36 0)).1 (by decide) (by decide),
   (claim_C5 (List.replicate 36 0)).2.1 (by decide) (by decide),
   (claim_C5 (List.replicate 132 0)).2.2.1 (by decide) (by decide),
   (claim_C5 (List.replicate 164 0)).2.2.2.1 (by decide) (by decide),
   (claim_C5 (List.replicate 132 0)).2.2.2.2.1 (by decide) (by decide),
   (claim_C5 (List.replicate 132 0)).2.2.2.2.2 (by decide) (by decide)⟩

/-- Claim C6: for every variant, two buffers of the correct SIZE carrying the
correct selector that agree on every non-padding byte — i.e. that can differ
only in the padding bytes of right-aligned fields (the top 28 bytes of a
u32 word, the top 24 bytes of a u64 word, the top 12 bytes of an address
word) — both decode to Ok, and to equal values: padding content is silently
ignored and never rejected. -/
theorem claim_C6 :
    (∀ b1 b2 : List Nat, b1.length = 36 → b2.length = 36 →
      sliceAt b1 0 4 = NewBtcBlockTx.METHOD_ID → sliceAt b2 0 4 = NewBtcBlockTx.METHOD_ID →
      sliceAt b1 4 32 = sliceAt b2 4 32 →
      ∃ t, NewBtcBlockTx.decode b1 = .ok t ∧ NewBtcBlockTx.decode b2 = .ok t) ∧
    (∀ b1 b2 : List Nat, b1.length = 36 → b2.length = 36 →
      sliceAt b1 0 4 = Cancel2Tx.METHOD_ID → sliceAt b2 0 4 = Cancel2Tx.METHOD_ID →
      sliceAt b1 4 32 = sliceAt b2 4 32 →
      ∃ t, Cancel2Tx.decode b1 = .ok t ∧ Cancel2Tx.decode b2 = .ok t) ∧
    (∀ b1 b2 : List Nat, b1.length = 132 → b2.length = 132 →
      sliceAt b1 0 4 = PaidTx.METHOD_ID → sliceAt b2 0 4 = PaidTx.METHOD_ID →
      sliceAt b1 4 32 = sliceAt b2 4 32 → sliceAt b1 36 32 = sliceAt b2 36 32 →
      sliceAt b1 96 4 = sliceAt b2 96 4 → sliceAt b1 100 32 = sliceAt b2 100 32 →
      ∃ t, PaidTx.decode b1 = .ok t ∧ PaidTx.decode b2 = .ok t) ∧
    (∀ b1 b2 : List Nat, b1.length = 164 → b2.length = 164 →
      sliceAt b1 0 4 = DepositTx.METHOD_ID → sliceAt b2 0 4 = DepositTx.METHOD_ID →
      sliceAt b1 4 32 = sliceAt b2 4 32 → sliceAt b1 64 4 = sliceAt b2 64 4 →
      sliceAt b1 80 20 = sliceAt b2 80 20 → sliceAt b1 100 32 = sliceAt b2 100 32 →
      sliceAt b1 132 32 = sliceAt b2 132 32 →
      ∃ t, DepositTx.decode b1 = .ok t ∧ DepositTx.decode b2 = .ok t) ∧
    (∀ b1 b2 : List Nat, b1.length = 132 → b2.length = 132 →
      sliceAt b1 0 4 = CompleteUnlockTx.METHOD_ID → sliceAt b2 0 4 = CompleteUnlockTx.METHOD_ID →
      sliceAt b1 28 8 = sliceAt b2 28 8 → sliceAt b1 48 20 = sliceAt b2 48 20 →
      sliceAt b1 80 20 = sliceAt b2 80 20 → sliceAt b1 100 32 = sliceAt b2 100 32 →
      ∃ t, CompleteUnlockTx.decode b1 = .ok t ∧ CompleteUnlockTx.decode b2 = .ok t) ∧
    (∀ b1 b2 : List Nat, b1.length = 132 → b2.length = 132 →
      sliceAt b1 0 4 = DistributeRewardTx.METHOD_ID → sliceAt b2 0 4 = DistributeRewardTx.METHOD_ID →
      sliceAt b1 28 8 = sliceAt b2 28 8 → sliceAt b1 48 20 = sliceAt b2 48 20 →
      sliceAt b1 68 32 = sliceAt b2 68 32 → sliceAt b1 100 32 = sliceAt b2 100 32 →
      ∃ t, DistributeRewardTx.decode b1 = .ok t ∧ DistributeRewardTx.decode b2 = .ok t) := by
  refine ⟨?_, ?_, ?_, ?_, ?_, ?_⟩
  · intro b1 b2 hl1 hl2 hs1 hs2 e1
    rw [NewBtcBlockTx.newbtc_decode_eq_of_len b1 hl1, NewBtcBlockTx.newbtc_decode_eq_of_len b2 hl2,
      if_pos hs1, if_pos hs2]
    exact ⟨_, rfl, by rw [e1]⟩
  · intro b1 b2 hl1 hl2 hs1 hs2 e1
    rw [Cancel2Tx.cancel2_decode_eq_of_len b1 hl1, Cancel2Tx.cancel2_decode_eq_of_len b2 hl2,
      if_pos hs1, if_pos hs2]
    exact ⟨_, rfl, by rw [e1]⟩
  · intro b1 b2 hl1 hl2 hs1 hs2 e1 e2 e3 e4
    rw [PaidTx.paid_decode_eq_of_len b1 hl1, PaidTx.paid_decode_eq_of_len b2 hl2,
      if_pos hs1, if_pos hs2]
    exact ⟨_, rfl, by rw [e1, e2, e3, e4]⟩
  · intro b1 b2 hl1 hl2 hs1 hs2 e1 e2 e3 e4 e5
    rw [DepositTx.deposit_decode_eq_of_len b1 hl1, DepositTx.deposit_decode_eq_of_len b2 hl2,
      if_pos hs1, if_pos hs2]
    exact ⟨_, rfl, by rw [e1, e2, e3, e4, e5]⟩
  · intro b1 b2 hl1 hl2 hs1 hs2 e1 e2 e3 e4
    rw [CompleteUnlockTx.unlock_decode_eq_of_len b1 hl1, CompleteUnlockTx.unlock_decode_eq_of_len b2 hl2,
      if_pos hs1, if_pos hs2]
    exact ⟨_, rfl, by rw [e1, e2, e3, e4]⟩
  · intro b1 b2 hl1 hl2 hs1 hs2 e1 e2 e3 e4
    rw [DistributeRewardTx.reward_decode_eq_of_len b1 hl1, DistributeRewardTx.reward_decode_eq_of_len b2 hl2,
      if_pos hs1, if_pos hs2]
    exact ⟨_, rfl, by rw [e1, e2, e3, e4]⟩

/-- Witness for C6: concrete buffer pairs per variant that differ exactly in
the padding bytes (zeros versus ones) and decode to equal values. -/
theorem claim_C6_witness :
    (∃ t, NewBtcBlockTx.decode (NewBtcBlockTx.METHOD_ID ++ List.replicate 32 0) = .ok t ∧
      NewBtcBlockTx.decode (NewBtcBlockTx.METHOD_ID ++ List.replicate 32 0) = .ok t) ∧
    (∃ t, Cancel2Tx.decode (Cancel2Tx.METHOD_ID ++ List.replicate 32 0) = .ok t ∧
      Cancel2Tx.decode (Cancel2Tx.METHOD_ID ++ List.replicate 32 0) = .ok t) ∧
    (∃ t, PaidTx.decode (PaidTx.METHOD_ID ++ List.replicate 128 0) = .ok t ∧
      PaidTx.decode (PaidTx.METHOD_ID ++ List.replicate 64 0 ++
        List.replicate 28 1 ++ List.replicate 36 0) = .ok t) ∧
    (∃ t, DepositTx.decode (DepositTx.METHOD_ID ++ List.replicate 160 0) = .ok t ∧
      DepositTx.decode (DepositTx.METHOD_ID ++ List.replicate 32 0 ++
        List.replicate 28 1 ++ List.replicate 4 0 ++
        List.replicate 12 1 ++ List.replicate 84 0) = .ok t) ∧
    (∃ t, CompleteUnlockTx.decode (CompleteUnlockTx.METHOD_ID ++ List.replicate 128 0) = .ok t ∧
      CompleteUnlockTx.decode (CompleteUnlockTx.METHOD_ID ++ List.replicate 24 1 ++
        List.replicate 8 0 ++ List.replicate 12 1 ++ List.replicate 20 0 ++
        List.replicate 12 1 ++ List.replicate 52 0) = .ok t) ∧
    (∃ t, DistributeRewardTx.decode (DistributeRewardTx.METHOD_ID ++ List.replicate 128 0) = .ok t ∧
      DistributeRewardTx.decode (DistributeRewardTx.METHOD_ID ++ List.replicate 24 1 ++
        List.replicate 8 0 ++ List.replicate 12 1 ++ List.replicate 84 0) = .ok t) :=
  have h := claim_C6
  ⟨h.1 _ _ (by decide) (by decide) (by decide) (by decide) (by decide),
   h.2.1 _ _ (by decide) (by decide) (by decide) (by decide) (by decide),
   h.2.2.1 _ _ (by decide) (by decide) (by decide) (by decide) (by decide)
     (by decide) (by decide) (by decide),
   h.2.2.2.1 _ _ (by decide) (by decide) (by decide) (by decide) (by decide)
     (by decide) (by decide) (by decide) (by decide),
   h.2.2.2.2.1 _ _ (by decide) (by decide) (by decide) (by decide) (by decide)
     (by decide) (by decide) (by decide),
   h.2.2.2.2.2 _ _ (by decide) (by decide) (by decide) (by decide) (by decide)
     (by decide) (by decide) (by decide)⟩

theorem DecodeResult.map_total {α β : Type} (f : α → β) (r : DecodeResult α)
    (h : (∃ e, r = .error e) ∨ ∃ t, r = .ok t) :
    (∃ e, r.map f = .error e) ∨ ∃ t, r.map f = .ok t := by
  rcases h with ⟨e, he⟩ | ⟨t, ht⟩
  · exact .inl ⟨e, by rw [he]; rfl⟩
  · exact .inr ⟨f t, by rw [ht]; rfl⟩

theorem NewBtcBlockTx.newbtc_decode_total (buf : List Nat) :
    NewBtcBlockTx.decode buf = .error (.ListLengthMismatch 36 buf.length) ∨
    NewBtcBlockTx.decode buf = .error (.Custom msgNotNewBlockHash) ∨
    ∃ t, NewBtcBlockTx.decode buf = .ok t := by
  by_cases hl : buf.length = 36
  · rw [NewBtcBlockTx.newbtc_decode_eq_of_len buf hl]
    by_cases hs : sliceAt buf 0 4 = NewBtcBlockTx.METHOD_ID
    · exact .inr (.inr ⟨_, if_pos hs⟩)
    · exact .inr (.inl (if_neg hs))
  · exact .inl (NewBtcBlockTx.newbtc_decode_len_err buf hl)

theorem Cancel2Tx.cancel2_decode_total (buf : List Nat) :
    Cancel2Tx.decode buf = .error (.ListLengthMismatch 36 buf.length) ∨
    Cancel2Tx.decode buf = .error (.Custom msgNotCancel2) ∨
    ∃ t, Cancel2Tx.decode buf = .ok t := by
  by_cases hl : buf.length = 36
  · rw [Cancel2Tx.cancel2_decode_eq_of_len buf hl]
    by_cases hs : sliceAt buf 0 4 = Cancel2Tx.METHOD_ID
    · exact .inr (.inr ⟨_, if_pos hs⟩)
    · exact .inr (.inl (if_neg hs))
  · exact .inl (Cancel2Tx.cancel2_decode_len_err buf hl)

theorem PaidTx.paid_decode_total (buf : List Nat) :
    PaidTx.decode buf = .error (.ListLengthMismatch 132 buf.length) ∨
    PaidTx.decode buf = .error (.Custom msgNotPaid) ∨
    ∃ t, PaidTx.decode buf = .ok t := by
  by_cases hl : buf.length = 132
  · rw [PaidTx.paid_decode_eq_of_len buf hl]
    by_cases hs : sliceAt buf 0 4 = PaidTx.METHOD_ID
    · exact .inr (.inr ⟨_, if_pos hs⟩)
    · exact .inr (.inl (if_neg hs))
  · exact .inl (PaidTx.paid_decode_len_err buf hl)

theorem DepositTx.deposit_decode_total (buf : List Nat) :
    DepositTx.decode buf = .error (.ListLengthMismatch 164 buf.length) ∨
    DepositTx.decode buf = .error (.Custom msgNotDeposit) ∨
    ∃ t, DepositTx.decode buf = .ok t := by
  by_cases hl : buf.length = 164
  · rw [DepositTx.deposit_decode_eq_of_len buf hl]
    by_cases hs : sliceAt buf 0 4 = DepositTx.METHOD_ID
    · exact .inr (.inr ⟨_, if_pos hs⟩)
    · exact .inr (.inl (if_neg hs))
  · exact .inl (DepositTx.deposit_decode_len_err buf hl)

theorem CompleteUnlockTx.unlock_decode_total (buf : List Nat) :
    CompleteUnlockTx.decode buf = .error (.ListLengthMismatch 132 buf.length) ∨
    CompleteUnlockTx.decode buf = .error (.Custom msgNotCompleteUnlock) ∨
    ∃ t, CompleteUnlockTx.decode buf = .ok t := by
  by_cases hl : buf.length = 132
  · rw [CompleteUnlockTx.unlock_decode_eq_of_len buf hl]
    by_cases hs : sliceAt buf 0 4 = CompleteUnlockTx.METHOD_ID
    · exact .inr (.inr ⟨_, if_pos hs⟩)
    · exact .inr (.inl (if_neg hs))
  · exact .inl (CompleteUnlockTx.unlock_decode_len_err buf hl)

theorem DistributeRewardTx.reward_decode_total (buf : List Nat) :
    DistributeRewardTx.decode buf = .error (.ListLengthMismatch 132 buf.length) ∨
    DistributeRewardTx.decode buf = .error (.Custom msgNotCompleteUnlock) ∨
    ∃ t, DistributeRewardTx.decode buf = .ok t := by
  by_cases hl : buf.length = 132
  · rw [DistributeRewardTx.reward_decode_eq_of_len buf hl]
    by_cases hs : sliceAt buf 0 4 = DistributeRewardTx.METHOD_ID
    · exact .inr (.inr ⟨_, if_pos hs⟩)
    · exact .inr (.inl (if_neg hs))
  · exact .inl (DistributeRewardTx.reward_decode_len_err buf hl)

theorem decode_goat_tx_total (m a : Nat) (buf : List Nat) :
    (∃ e, decode_goat_tx m a buf = .error e) ∨
    ∃ t, decode_goat_tx m a buf = .ok t := by
  have tot3 : ∀ {α : Type} (r : DecodeResult α) (e1 e2 : RlpError),
      (r = .error e1 ∨ r = .error e2 ∨ ∃ t, r = .ok t) →
      ((∃ e, r = .error e) ∨ ∃ t, r = .ok t) := by
    intro α r e1 e2 h
    rcases h with h | h | h
    · exact .inl ⟨e1, h⟩
    · exact .inl ⟨e2, h⟩
    · exact .inr h
  unfold decode_goat_tx
  split_ifs
  · exact DecodeResult.map_total _ _ (tot3 _ _ _ (NewBtcBlockTx.newbtc_decode_total buf))
  · exact DecodeResult.map_total _ _ (tot3 _ _ _ (Cancel2Tx.cancel2_decode_total buf))
  · exact DecodeResult.map_total _ _ (tot3 _ _ _ (DepositTx.deposit_decode_total buf))
  · exact DecodeResult.map_total _ _ (tot3 _ _ _ (PaidTx.paid_decode_total buf))
  · exact .inl ⟨_, rfl⟩
  · exact DecodeResult.map_total _ _ (tot3 _ _ _ (CompleteUnlockTx.unlock_decode_total buf))
  · exact DecodeResult.map_total _ _ (tot3 _ _ _ (DistributeRewardTx.reward_decode_total buf))
  · exact .inl ⟨_, rfl⟩
  · exact .inl ⟨_, rfl⟩

/-- Claim C9: every variant decoder and the dispatcher are total on all
buffers: the result is always either the length-mismatch error, the
selector-mismatch error, or Ok — in particular never the panic outcome
(all fixed-offset reads are in bounds once the length check passed) and
never one of the defensive malformed-field Custom errors, whose branches
are unreachable. -/
theorem claim_C9 (buf : List Nat) (m a : Nat) :
    (NewBtcBlockTx.decode buf = .error (.ListLengthMismatch 36 buf.length) ∨
     NewBtcBlockTx.decode buf = .error (.Custom msgNotNewBlockHash) ∨
     ∃ t, NewBtcBlockTx.decode buf = .ok t) ∧
    (Cancel2Tx.decode buf = .error (.ListLengthMismatch 36 buf.length) ∨
     Cancel2Tx.decode buf = .error (.Custom msgNotCancel2) ∨
     ∃ t, Cancel2Tx.decode buf = .ok t) ∧
    (PaidTx.decode buf = .error (.ListLengthMismatch 132 buf.length) ∨
     PaidTx.decode buf = .error (.Custom msgNotPaid) ∨
     ∃ t, PaidTx.decode buf = .ok t) ∧
    (DepositTx.decode buf = .error (.ListLengthMismatch 164 buf.length) ∨
     DepositTx.decode buf = .error (.Custom msgNotDeposit) ∨
     ∃ t, DepositTx.decode buf = .ok t) ∧
    (CompleteUnlockTx.decode buf = .error (.ListLengthMismatch 132 buf.length) ∨
     CompleteUnlockTx.decode buf = .error (.Custom msgNotCompleteUnlock) ∨
     ∃ t, CompleteUnlockTx.decode buf = .ok t) ∧
    (DistributeRewardTx.decode buf = .error (.ListLengthMismatch 132 buf.length) ∨
     DistributeRewardTx.decode buf = .error (.Custom msgNotCompleteUnlock) ∨
     ∃ t, DistributeRewardTx.decode buf = .ok t) ∧
    ((∃ e, decode_goat_tx m a buf = .error e) ∨
     ∃ t, decode_goat_tx m a buf = .ok t) :=
  ⟨NewBtcBlockTx.newbtc_decode_total buf, Cancel2Tx.cancel2_decode_total buf, PaidTx.paid_decode_total buf,
   DepositTx.deposit_decode_total buf, CompleteUnlockTx.unlock_decode_total buf,
   DistributeRewardTx.reward_decode_total buf, decode_goat_tx_total m a buf⟩

/-- Claim C10: the six 4-byte method selectors are pairwise distinct, and
for every buffer at most one of the six variant decoders returns Ok: no
payload can be interpreted as two different inner transaction kinds. -/
theorem claim_C10 :
    [NewBtcBlockTx.METHOD_ID, Cancel2Tx.METHOD_ID, PaidTx.METHOD_ID,
     DepositTx.METHOD_ID, CompleteUnlockTx.METHOD_ID,
     DistributeRewardTx.METHOD_ID].Nodup ∧
    ∀ buf : List Nat, okCount buf ≤ 1 :=
  ⟨by decide, okCount_le_one⟩

-- ## RLP round-trip lemmas

theorem fromBeBytes_append_byte (xs : List Nat) (b : Nat) :
    fromBeBytes (xs ++ [b]) = fromBeBytes xs * 256 + b := by
  simp [fromBeBytes, List.foldl_append]

theorem beBytes_zero : beBytes 0 = [] := by
  simp [beBytes]

theorem beBytes_of_ne_zero {n : Nat} (h : n ≠ 0) :
    beBytes n = beBytes (n / 256) ++ [n % 256] := by
  rw [beBytes]
  simp [h]

theorem fromBeBytes_beBytes (n : Nat) : fromBeBytes (beBytes n) = n := by
  induction n using Nat.strong_induction_on with
  | _ n ih =>
    by_cases h : n = 0
    · subst h
      simp [beBytes_zero, fromBeBytes]
    · rw [beBytes_of_ne_zero h, fromBeBytes_append_byte,
        ih (n / 256) (Nat.div_lt_self (Nat.pos_of_ne_zero h) (by norm_num))]
      omega

theorem beBytes_ne_nil {n : Nat} (h : n ≠ 0) : beBytes n ≠ [] := by
  rw [beBytes_of_ne_zero h]
  simp

theorem beBytes_headD_ne_zero (d : Nat) :
    ∀ n : Nat, n ≠ 0 → (beBytes n).headD d ≠ 0 := by
  intro n
  induction n using Nat.strong_induction_on with
  | _ n ih =>
    intro h
    rw [beBytes_of_ne_zero h]
    by_cases h2 : n / 256 = 0
    · rw [h2, beBytes_zero]
      simp
      omega
    · have hne := beBytes_ne_nil h2
      have hd := ih (n / 256) (Nat.div_lt_self (Nat.pos_of_ne_zero h) (by norm_num)) h2
      cases hb : beBytes (n / 256) with
      | nil => exact absurd hb hne
      | cons a t =>
        rw [hb] at hd
        simpa using hd

theorem beBytes_len_le : ∀ n k : Nat, n < 256 ^ k → (beBytes n).length ≤ k := by
  intro n
  induction n using Nat.strong_induction_on with
  | _ n ih =>
    intro k hk
    by_cases h : n = 0
    · simp [h, beBytes_zero]
    · rw [beBytes_of_ne_zero h]
      have hk0 : k ≠ 0 := by
        rintro rfl
        simp at hk
        omega
      obtain ⟨j, rfl⟩ : ∃ j, k = j + 1 := ⟨k - 1, by omega⟩
      have hlt : n / 256 < 256 ^ j := by
        have hx : n < 256 ^ j * 256 := by
          calc n < 256 ^ (j + 1) := hk
          _ = 256 ^ j * 256 := by rw [pow_succ]
        exact (Nat.div_lt_iff_lt_mul (by norm_num)).mpr hx
      have := ih (n / 256) (Nat.div_lt_self (Nat.pos_of_ne_zero h) (by norm_num)) j hlt
      simp only [List.length_append, List.length_cons, List.length_nil]
      omega

theorem beBytes_single {n x : Nat} (h : beBytes n = [x]) : x = n := by
  have hf := fromBeBytes_beBytes n
  rw [h] at hf
  simpa [fromBeBytes] using hf

theorem rlpDecodeNat_rlpEncodeNat (maxB n : Nat) (rest : List Nat)
    (hmax : maxB ≤ 55) (hn : n < 256 ^ maxB) :
    rlpDecodeNat maxB (rlpEncodeNat n ++ rest) = .ok (n, rest) := by
  by_cases h0 : n = 0
  · subst h0
    simp [rlpEncodeNat, rlpDecodeNat, fromBeBytes]
  · by_cases h1 : n < 0x80
    · simp [rlpEncodeNat, h0, h1, rlpDecodeNat]
    · obtain ⟨x, xs, hbx⟩ : ∃ x xs, beBytes n = x :: xs := by
        cases hb : beBytes n with
        | nil => exact absurd hb (beBytes_ne_nil h0)
        | cons a t => exact ⟨a, t, rfl⟩
      have hx0 : x ≠ 0 := by
        have := beBytes_headD_ne_zero 1 n h0
        rw [hbx] at this
        simpa using this
      have hlen : (beBytes n).length ≤ maxB := beBytes_len_le n maxB hn
      have hlen55 : (beBytes n).length ≤ 55 := le_trans hlen hmax
      have hsingle : xs = [] → ¬x < 0x80 := by
        rintro rfl
        have := beBytes_single hbx
        omega
      rw [rlpEncodeNat, if_neg h0, if_neg h1, hbx]
      rw [hbx] at hlen hlen55
      simp only [List.length_cons] at hlen hlen55
      show rlpDecodeNat maxB ((0x80 + (xs.length + 1)) :: ((x :: xs) ++ rest)) = .ok (n, rest)
      simp only [rlpDecodeNat]
      rw [if_neg (by omega)]
      rw [if_pos (by omega)]
      have harith : 0x80 + (xs.length + 1) - 0x80 = xs.length + 1 := by omega
      simp only [List.length_cons, harith]
      rw [if_neg (by omega)]
      rw [if_neg (by
        simp only [List.length_cons, List.length_append, Nat.not_lt]
        omega)]
      rw [if_neg (by
        rintro ⟨hl1, hh⟩
        have hxs : xs = [] := by
          cases xs with
          | nil => rfl
          | cons a t => simp at hl1
        exact hsingle hxs (by simpa [hxs] using hh))]
      rw [if_neg (by
        have ht : (x :: xs ++ rest).take (xs.length + 1) = x :: xs := by
          rw [show (x :: xs ++ rest) = (x :: xs) ++ rest from rfl]
          exact List.take_left' (by simp)
        rw [ht]
        simpa using hx0)]
      have ht : (x :: xs ++ rest).take (xs.length + 1) = x :: xs := by
        rw [show (x :: xs ++ rest) = (x :: xs) ++ rest from rfl]
        exact List.take_left' (by simp)
      have hd : (x :: xs ++ rest).drop (xs.length + 1) = rest := by
        rw [show (x :: xs ++ rest) = (x :: xs) ++ rest from rfl]
        exact List.drop_left' (by simp)
      rw [ht, hd, ← hbx, fromBeBytes_beBytes]

theorem rlpDecodeBytes_rlpEncodeBytes (bs rest : List Nat)
    (hlen : bs.length < 2 ^ 64) :
    rlpDecodeBytes (rlpEncodeBytes bs ++ rest) = .ok (bs, rest) := by
  by_cases h1 : bs.length = 1 ∧ bs.headD 0 < 0x80
  · obtain ⟨x, rfl⟩ : ∃ x, bs = [x] := by
      cases bs with
      | nil => simp at h1
      | cons a t =>
        cases t with
        | nil => exact ⟨a, rfl⟩
        | cons b u => simp at h1
    simp only [rlpEncodeBytes, if_pos h1]
    simp only [List.cons_append, List.nil_append, rlpDecodeBytes]
    rw [if_pos (by simpa using h1.2)]
  · by_cases h2 : bs.length ≤ 55
    · rw [rlpEncodeBytes, if_neg h1, if_pos h2]
      show rlpDecodeBytes ((0x80 + bs.length) :: (bs ++ rest)) = .ok (bs, rest)
      simp only [rlpDecodeBytes]
      rw [if_neg (by omega)]
      rw [if_pos (by omega)]
      have harith : 0x80 + bs.length - 0x80 = bs.length := by omega
      simp only [harith]
      rw [if_neg (by
        simp only [List.length_append, Nat.not_lt]
        omega)]
      rw [if_neg (by
        rintro ⟨hl1, hh⟩
        refine h1 ⟨hl1, ?_⟩
        obtain ⟨x, rfl⟩ : ∃ x, bs = [x] := by
          cases bs with
          | nil => simp at hl1
          | cons a t =>
            cases t with
            | nil => exact ⟨a, rfl⟩
            | cons b u => simp at hl1
        simpa using hh)]
      rw [List.take_left' rfl, List.drop_left' rfl]
    · have hne : bs.length ≠ 0 := by omega
      have hL1 : beBytes bs.length ≠ [] := beBytes_ne_nil hne
      obtain ⟨x, xs, hbx⟩ : ∃ x xs, beBytes bs.length = x :: xs := by
        cases hb : beBytes bs.length with
        | nil => exact absurd hb hL1
        | cons a t => exact ⟨a, t, rfl⟩
      have hL8 : (beBytes bs.length).length ≤ 8 := by
        refine beBytes_len_le bs.length 8 ?_
        calc bs.length < 2 ^ 64 := hlen
        _ = 256 ^ 8 := by norm_num
      rw [rlpEncodeBytes, if_neg h1, if_neg h2, hbx]
      rw [hbx] at hL8
      simp only [List.length_cons] at hL8
      show rlpDecodeBytes ((0xb7 + (xs.length + 1)) ::
        (((x :: xs) ++ bs) ++ rest)) = .ok (bs, rest)
      simp only [rlpDecodeBytes]
      rw [if_neg (by omega)]
      rw [if_neg (by omega)]
      rw [if_pos (by omega)]
      have harith : 0xb7 + (xs.length + 1) - 0xb7 = xs.length + 1 := by omega
      simp only [harith]
      rw [List.append_assoc]
      rw [if_neg (by
        simp only [List.length_cons, List.length_append, Nat.not_lt]
        omega)]
      rw [List.take_left' (by simp), List.drop_left' (by simp)]
      rw [if_neg (by
        have := beBytes_headD_ne_zero 1 bs.length hne
        rw [hbx] at this
        simpa using this)]
      rw [← hbx, fromBeBytes_beBytes]
      rw [if_neg (by omega)]
      rw [if_neg (by
        simp only [List.length_append, Nat.not_lt]
        omega)]
      rw [List.take_left' rfl, List.drop_left' rfl]

/-- Claim C7: for every valid envelope x — module and action single bytes,
nonce a u64, input length a usize, the (module, action) route decoding the
payload to exactly the stored inner value, and the chain id holding the
protocol constant — decoding the bytes produced by encoding x yields x
back together with the unconsumed remainder: the encoder emits exactly
(module, action, nonce, payload) in order and the decoder re-derives the
inner value and chain id. -/
theorem claim_C7 (x : TxGoat) (rest : List Nat)
    (hm : x.module < 256) (ha : x.action < 256) (hn : x.nonce < 2 ^ 64)
    (hi : x.input.length < 2 ^ 64)
    (hinner : decode_goat_tx x.module x.action x.input = .ok x.inner)
    (hcid : x.chain_id = GOAT_CHAIN_ID) :
    TxGoat.rlp_decode_fields (TxGoat.rlp_encode_fields x ++ rest) = .ok (x, rest) := by
  obtain ⟨m, a, n, inp, inner, cid⟩ := x
  simp only at hm ha hn hi hinner hcid
  subst hcid
  have e1 := rlpDecodeNat_rlpEncodeNat 1 m
    (rlpEncodeNat a ++ (rlpEncodeNat n ++ (rlpEncodeBytes inp ++ rest)))
    (by norm_num) (by simpa using hm)
  have e2 := rlpDecodeNat_rlpEncodeNat 1 a
    (rlpEncodeNat n ++ (rlpEncodeBytes inp ++ rest))
    (by norm_num) (by simpa using ha)
  have e3 := rlpDecodeNat_rlpEncodeNat 8 n (rlpEncodeBytes inp ++ rest)
    (by norm_num) (by
      calc n < 2 ^ 64 := hn
      _ = 256 ^ 8 := by norm_num)
  have e4 := rlpDecodeBytes_rlpEncodeBytes inp rest hi
  simp only [TxGoat.rlp_encode_fields, TxGoat.rlp_decode_fields,
    List.append_assoc, e1, e2, e3, e4, hinner]

/-- Witness for C7 at a concrete valid envelope (the btc-block test vector). -/
theorem claim_C7_witness :
    TxGoat.rlp_decode_fields (TxGoat.rlp_encode_fields sampleEnvelope ++ []) =
      .ok (sampleEnvelope, []) :=
  claim_C7 sampleEnvelope [] (by decide) (by decide) (by decide) (by decide)
    (by decide) (by decide)

/-- Claim C8: the envelope's chain id is a fixed protocol constant and not
part of the wire form: encoding ignores the chain_id field entirely, every
envelope produced by decode carries chain_id = GOAT_CHAIN_ID whatever the
input bytes, and the chain_id() accessor returns the build-time constant
(testnet or mainnet) for every envelope. -/
theorem claim_C8 :
    (∀ (x : TxGoat) (c : Nat),
      TxGoat.rlp_encode_fields { x with chain_id := c } = TxGoat.rlp_encode_fields x) ∧
    (∀ (buf : List Nat) (y : TxGoat) (rest : List Nat),
      TxGoat.rlp_decode_fields buf = .ok (y, rest) → y.chain_id = GOAT_CHAIN_ID) ∧
    (∀ (tn : Bool) (x : TxGoat),
      TxGoat.chainId tn x =
        some (if tn then GOAT_TESTNET_CHAIN_ID else GOAT_CHAIN_ID)) := by
  refine ⟨fun x c => by cases x; rfl, fun buf y rest h => ?_, fun tn x => rfl⟩
  unfold TxGoat.rlp_decode_fields at h
  repeat' split at h
  all_goals try (exact DecodeResult.noConfusion h)
  simp only [DecodeResult.ok.injEq, Prod.mk.injEq] at h
  obtain ⟨h1, h2⟩ := h
  rw [← h1]

/-- Witness for C8 at a concrete envelope and concrete wire bytes. -/
theorem claim_C8_witness :
    TxGoat.rlp_encode_fields { sampleEnvelope with chain_id := 7 } =
      TxGoat.rlp_encode_fields sampleEnvelope ∧
    sampleEnvelope.chain_id = GOAT_CHAIN_ID ∧
    TxGoat.chainId false sampleEnvelope = some GOAT_CHAIN_ID :=
  ⟨claim_C8.1 sampleEnvelope 7,
   claim_C8.2.1 sampleEnvelopeBytes sampleEnvelope [] (by decide),
   by simpa using claim_C8.2.2 false sampleEnvelope⟩
